import Mathlib

/-!
Shallow embedding of the Project-StormWater agent core: the shared context
store (`src/context_manager.py`), the cycle scheduler (`src/agent_loop.py`),
and the skill dispatchers (`src/file_manager.py`, `src/self_optimizer.py`,
`src/config_loader.py`, `src/base_commands.py`, `src/mobile/model_router.py`).

Python `Dict[str, Any]` payload values are never inspected by any of the
embedded operations (they are stored, queued, returned, or passed straight to
external collaborators), so they are modelled by an opaque stand-in type.
Timestamps (`datetime.now().isoformat()`) are opaque strings supplied as
parameters; wall-clock durations (`time.time()` differences) are rationals.
External I/O calls (file system, network, `time.sleep`) are modelled as
`Except`-returning parameters: they may raise, and the embedding records
exactly how the dispatch code reacts.
-/

set_option autoImplicit false

/-- Opaque stand-in for Python `Any` payload values. -/
abbrev Payload := String

/-- One short-term-memory entry: `{'timestamp': ..., 'data': item}`
(`ContextManager.add_to_memory`). -/
structure MemEntry where
  timestamp : String
  data : Payload
deriving DecidableEq

/-- The `ContextManager.current_context` record (`src/context_manager.py`,
`__init__`): the six keys of the context dictionary. -/
structure Ctx where
  system_state : String
  last_update : Option String
  active_tasks : List Payload
  pending_inputs : List Payload
  environment_data : List (String × Payload)
  short_term_memory : List MemEntry
deriving DecidableEq

namespace ContextManager

/-- The context built by `ContextManager.__init__`. -/
def initial_context : Ctx :=
  { system_state := "initializing"
    last_update := none
    active_tasks := []
    pending_inputs := []
    environment_data := []
    short_term_memory := [] }

/-- `max_items` in `_prune_short_term_memory`. -/
def max_items : Nat := 100

/-- `ContextManager._prune_short_term_memory`: if the memory holds more than
`max_items` entries, keep only the last `max_items` (`lst[-max_items:]`). -/
def prune_short_term_memory (c : Ctx) : Ctx :=
  if c.short_term_memory.length > max_items then
    { c with short_term_memory :=
        c.short_term_memory.drop (c.short_term_memory.length - max_items) }
  else c

/-- `ContextManager._update_environment_data`: the body is `pass`. -/
def update_environment_data (c : Ctx) : Ctx := c

/-- `ContextManager.update`: set `last_update` to the current timestamp, run
the (empty) environment refresh, then prune short-term memory. -/
def update (now : String) (c : Ctx) : Ctx :=
  prune_short_term_memory (update_environment_data { c with last_update := some now })

/-- The entry appended by `add_to_memory`. -/
def mkMemEntry (now : String) (item : Payload) : MemEntry :=
  { timestamp := now, data := item }

/-- `ContextManager.add_to_memory`: append a timestamped entry to
`short_term_memory`. It does not prune. -/
def add_to_memory (now : String) (item : Payload) (c : Ctx) : Ctx :=
  { c with short_term_memory := c.short_term_memory ++ [mkMemEntry now item] }

/-- A finite sequence of `add_to_memory` calls, one per `(timestamp, item)`
pair, in call order. -/
def appendAll (items : List (String × Payload)) (c : Ctx) : Ctx :=
  items.foldl (fun acc it => add_to_memory it.1 it.2 acc) c

/-- `ContextManager.get_pending_inputs`: return the current `pending_inputs`
list and replace the stored list with a fresh empty one. -/
def get_pending_inputs (c : Ctx) : List Payload × Ctx :=
  (c.pending_inputs, { c with pending_inputs := [] })

/-- `ContextManager.add_task`: append to `active_tasks`. -/
def add_task (task : Payload) (c : Ctx) : Ctx :=
  { c with active_tasks := c.active_tasks ++ [task] }

/-- `ContextManager.get_active_tasks`. -/
def get_active_tasks (c : Ctx) : List Payload := c.active_tasks

/-- A persisted context blob as `json.load` may return it: any subset of the
six context keys may be present (`none` = the key is absent from the file). -/
structure SavedContext where
  system_state : Option String := none
  last_update : Option (Option String) := none
  active_tasks : Option (List Payload) := none
  pending_inputs : Option (List Payload) := none
  environment_data : Option (List (String × Payload)) := none
  short_term_memory : Option (List MemEntry) := none
deriving DecidableEq

/-- Python `dict.update`: keys present in the blob overwrite the current
value, absent keys keep it. -/
def dictUpdate (c : Ctx) (b : SavedContext) : Ctx :=
  { system_state := b.system_state.getD c.system_state
    last_update := b.last_update.getD c.last_update
    active_tasks := b.active_tasks.getD c.active_tasks
    pending_inputs := b.pending_inputs.getD c.pending_inputs
    environment_data := b.environment_data.getD c.environment_data
    short_term_memory := b.short_term_memory.getD c.short_term_memory }

/-- `ContextManager.load_initial_state`. The file layer is a parameter:
`none` means `context_file.exists()` is false; `some (.error e)` means the
open/`json.load`/`dict.update` sequence raised (caught and logged, the
context is left as it was); `some (.ok blob)` means a blob was parsed and is
merged with `dict.update`. The method never raises. -/
def load_initial_state (file : Option (Except String SavedContext)) (c : Ctx) : Ctx :=
  match file with
  | none => c
  | some (Except.error _) => c
  | some (Except.ok saved) => dictUpdate c saved

/-- `ContextManager.save_state`. The mkdir/open/`json.dump` sequence is a
parameter that may raise; a raise is caught and logged. The result is the
(unchanged) context paired with whether the save succeeded; the method never
raises and never mutates the context. -/
def save_state (writeResult : Except String Unit) (c : Ctx) : Ctx × Bool :=
  match writeResult with
  | Except.ok _ => (c, true)
  | Except.error _ => (c, false)

end ContextManager

/-- The result envelope the skill dispatchers return: a string-keyed dict
with a `status` key, an optional `message` key, and any further payload
entries (`content`, `items`, ...), which the dispatch code never writes. -/
structure CmdResult where
  status : String
  message : Option String := none
  fields : List (String × Payload) := []
deriving DecidableEq

/-- The error envelope `{"status": "error", "message": str(e)}` produced at
every `except` site of the dispatchers. -/
def errEnvelope (msg : String) : CmdResult :=
  { status := "error", message := some msg }

/-- `params[key]` on an optional parameter entry: raises `KeyError` when the
key is absent (inside the dispatchers' `try` blocks). -/
def getParam (key : String) : Option String → Except String String
  | some v => Except.ok v
  | none => Except.error ("KeyError: " ++ key)

namespace FileManager

/-- `FileManager.allowed_operations`. -/
def allowed_operations : List String := ["read", "write", "list", "delete", "move"]

/-- The parameter dict of `FileManager.execute` (`path`, `content`,
`source`, `destination` are the keys the branches read). -/
structure FMParams where
  path : Option String := none
  content : Option String := none
  source : Option String := none
  destination : Option String := none
deriving DecidableEq

/-- The five file operations (`read_file`, ...). Their bodies are one-line
OS wrappers (`open`, `os.listdir`, `os.remove`, `shutil.move`); they are
modelled as external functions that may raise. -/
structure FMOps where
  read_file : String → Except String CmdResult
  write_file : String → String → Except String CmdResult
  list_directory : String → Except String CmdResult
  delete_file : String → Except String CmdResult
  move_file : String → String → Except String CmdResult

/-- The `if operation == ... elif ...` chain inside the `try` block of
`FileManager.execute`: parameter lookups (`params['path']`, ...) happen
inside the `try` and may raise `KeyError`; an operation matching no branch
falls out of the `try` with no `return` (Python returns `None`). -/
def dispatch_op (ops : FMOps) (operation : String) (params : FMParams) :
    Except String (Option CmdResult) :=
  if operation = "read" then
    (getParam "path" params.path >>= ops.read_file).map some
  else if operation = "write" then
    (do ops.write_file (← getParam "path" params.path)
          (← getParam "content" params.content)).map some
  else if operation = "list" then
    (getParam "path" params.path >>= ops.list_directory).map some
  else if operation = "delete" then
    (getParam "path" params.path >>= ops.delete_file).map some
  else if operation = "move" then
    (do ops.move_file (← getParam "source" params.source)
          (← getParam "destination" params.destination)).map some
  else Except.ok none

/-- `FileManager.execute`: operations outside `allowed_operations` get an
error envelope before the `try`; otherwise the branch runs inside the fault
boundary and any raise becomes `{"status": "error", "message": str(e)}`. -/
def execute (ops : FMOps) (operation : String) (params : FMParams) :
    Option CmdResult :=
  if operation ∉ allowed_operations then
    some (errEnvelope ("Operation " ++ operation ++ " not allowed"))
  else
    match dispatch_op ops operation params with
    | Except.ok r => r
    | Except.error e => some (errEnvelope e)

end FileManager

namespace SelfOptimizer

/-- `params.get('target_metric')` (no `KeyError` possible: `.get`). -/
structure SOParams where
  target_metric : Option String := none
deriving DecidableEq

/-- The three operations of `SelfOptimizer` (`optimize_system`,
`analyze_performance`, `suggest_improvements`): their bodies collect system
metrics and apply optimizations; modelled as external functions that may
raise (their own internal `try`/`except` notwithstanding). -/
structure SOOps where
  optimize_system : Option String → Except String CmdResult
  analyze_performance : Except String CmdResult
  suggest_improvements : Except String CmdResult

/-- The `if operation == ... elif ...` chain inside the `try` block of
`SelfOptimizer.execute`; an unmatched operation falls through (`None`). -/
def dispatch_op (ops : SOOps) (operation : String) (params : SOParams) :
    Except String (Option CmdResult) :=
  if operation = "optimize" then
    (ops.optimize_system params.target_metric).map some
  else if operation = "analyze_performance" then
    ops.analyze_performance.map some
  else if operation = "suggest_improvements" then
    ops.suggest_improvements.map some
  else Except.ok none

/-- `SelfOptimizer.execute`: the whole chain runs inside one fault boundary;
any raise becomes `{"status": "error", "message": str(e)}`. -/
def execute (ops : SOOps) (operation : String) (params : SOParams) :
    Option CmdResult :=
  match dispatch_op ops operation params with
  | Except.ok r => r
  | Except.error e => some (errEnvelope e)

end SelfOptimizer

namespace ConfigLoader

/-- The parameter keys read by `ConfigLoader.execute` (`name`, `data`,
`schema`); `data` and `schema` are opaque payloads. -/
structure CLParams where
  name : Option String := none
  data : Option Payload := none
  schema : Option Payload := none
deriving DecidableEq

/-- The four operations of `ConfigLoader` (`load_config`, `save_config`,
`list_configs`, `validate_config`): file-format wrappers, modelled as
external functions that may raise. -/
structure CLOps where
  load_config : String → Except String CmdResult
  save_config : String → Payload → Except String CmdResult
  list_configs : Except String CmdResult
  validate_config : String → Payload → Except String CmdResult

/-- The `if operation == ... elif ...` chain inside the `try` block of
`ConfigLoader.execute`; parameter lookups may raise `KeyError`; an
unmatched operation falls through (`None`). -/
def dispatch_op (ops : CLOps) (operation : String) (params : CLParams) :
    Except String (Option CmdResult) :=
  if operation = "load" then
    (getParam "name" params.name >>= ops.load_config).map some
  else if operation = "save" then
    (do ops.save_config (← getParam "name" params.name)
          (← getParam "data" params.data)).map some
  else if operation = "list" then
    ops.list_configs.map some
  else if operation = "validate" then
    (do ops.validate_config (← getParam "name" params.name)
          (← getParam "schema" params.schema)).map some
  else Except.ok none

/-- `ConfigLoader.execute`: one fault boundary around the whole chain. -/
def execute (ops : CLOps) (operation : String) (params : CLParams) :
    Option CmdResult :=
  match dispatch_op ops operation params with
  | Except.ok r => r
  | Except.error e => some (errEnvelope e)

end ConfigLoader

namespace WebScraper

/-- The parameter keys read by `WebScraper.execute` (`url`, `html`). -/
structure WSParams where
  url : Option String := none
  html : Option String := none
deriving DecidableEq

/-- The three operations of `WebScraper` (`fetch_page`, `extract_text`,
`extract_links`): HTTP/parsing wrappers, modelled as external functions
that may raise. -/
structure WSOps where
  fetch_page : String → Except String CmdResult
  extract_text : String → Except String CmdResult
  extract_links : String → Except String CmdResult

/-- The `if operation == ... elif ...` chain inside the `try` block of
`WebScraper.execute`; an unmatched operation falls through (`None`). -/
def dispatch_op (ops : WSOps) (operation : String) (params : WSParams) :
    Except String (Option CmdResult) :=
  if operation = "fetch_page" then
    (getParam "url" params.url >>= ops.fetch_page).map some
  else if operation = "extract_text" then
    (getParam "html" params.html >>= ops.extract_text).map some
  else if operation = "extract_links" then
    (getParam "html" params.html >>= ops.extract_links).map some
  else Except.ok none

/-- `WebScraper.execute`: one fault boundary around the whole chain. -/
def execute (ops : WSOps) (operation : String) (params : WSParams) :
    Option CmdResult :=
  match dispatch_op ops operation params with
  | Except.ok r => r
  | Except.error e => some (errEnvelope e)

end WebScraper

namespace ModelRouter

/-- A registered model handler: `model.process(request_data)`, an external
call that may raise. -/
structure ModelHandler where
  process : Payload → Except String CmdResult

/-- `self.available_models`, a dict from model-type name to an optional
handler, modelled as an association list. -/
structure Router where
  available_models : List (String × Option ModelHandler)

/-- Dict membership / item access on the association list. -/
def listLookup {α : Type} (k : String) : List (String × α) → Option α
  | [] => none
  | (a, v) :: rest => if k = a then some v else listLookup k rest

/-- The router built by `ModelRouter.__init__`: `llm` and `vision` are
registered but not initialized (`None`). -/
def init_router : Router :=
  { available_models := [("llm", none), ("vision", none)] }

/-- `ModelRouter.route_request`: unknown model type logs
`"Unknown model type: <name>"` and returns `None`; a registered but
uninitialized model logs and returns `None`; a raise from `model.process`
is caught, logged and turned into `None`. -/
def route_request (r : Router) (model_type : String) (request_data : Payload) :
    Option CmdResult :=
  match listLookup model_type r.available_models with
  | none => none
  | some none => none
  | some (some m) =>
    match m.process request_data with
    | Except.ok res => some res
    | Except.error _ => none

/-- `ModelRouter.register_model`: bind (or rebind) a model type. -/
def register_model (r : Router) (model_type : String) (h : ModelHandler) : Router :=
  { available_models := (model_type, some h) :: r.available_models }

end ModelRouter

namespace VaderLoop

/-- The mutable fields of `VaderLoop` (`src/agent_loop.py`, `__init__`)
together with the shared context. `VaderLoop` has exactly these fields:
`running`, `cycle_count`, `last_cycle_time` — there is no error counter. -/
structure LoopState where
  running : Bool
  cycle_count : Nat
  last_cycle_time : ℚ
  ctx : Ctx
deriving DecidableEq

/-- The loop state built by `VaderLoop.__init__`. -/
def init_state (c : Ctx) : LoopState :=
  { running := false, cycle_count := 0, last_cycle_time := 0, ctx := c }

/-- The external world a running loop interacts with, indexed by the cycle
number: the `datetime.now().isoformat()` timestamp the context update reads,
the measured `time.time()` difference for the cycle, and the outcome of
`time.sleep` (which may raise, e.g. on interrupt). -/
structure VaderEnv where
  now : Nat → String
  elapsed : Nat → ℚ
  sleep : Nat → ℚ → Except String Unit

/-- `VaderLoop._process_inputs`: logs each input; no state change. -/
def process_inputs (_inputs : List Payload) (s : LoopState) : LoopState := s

/-- `VaderLoop._determine_next_action`: the body is a stub that returns
`None` unconditionally. -/
def determine_next_action (_s : LoopState) : Option Payload := none

/-- `VaderLoop._execute_action`: logs the action; no state change. -/
def execute_action (_action : Payload) (s : LoopState) : LoopState := s

/-- `VaderLoop._execute_cycle`: increment `cycle_count`, update the context,
drain pending inputs (processing them if non-empty), ask for a next action
(executing it if one is chosen), and record the measured cycle duration in
`last_cycle_time`. -/
def execute_cycle (now : String) (elapsed : ℚ) (s : LoopState) : LoopState :=
  let s1 : LoopState := { s with cycle_count := s.cycle_count + 1 }
  let c1 : Ctx := ContextManager.update now s1.ctx
  let drained := ContextManager.get_pending_inputs c1
  let s2 : LoopState := { s1 with ctx := drained.2 }
  let s3 : LoopState :=
    if drained.1.isEmpty then s2 else process_inputs drained.1 s2
  let s4 : LoopState :=
    match determine_next_action s3 with
    | some a => execute_action a s3
    | none => s3
  { s4 with last_cycle_time := elapsed }

/-- `VaderLoop._manage_cycle_timing`, as the duration handed to
`time.sleep`: `some d` means `time.sleep(d)` is called with
`d = 0.1 - last_cycle_time`; `none` means no sleep happens. -/
def manage_cycle_timing (last_cycle_time : ℚ) : Option ℚ :=
  if last_cycle_time < 1 / 10 then some (1 / 10 - last_cycle_time) else none

/-- The body of the `try` block in `VaderLoop.run`: `_execute_cycle`
followed by `_manage_cycle_timing`. A raise from `time.sleep` carries the
state as already mutated by `_execute_cycle`. -/
def cycle_body (env : VaderEnv) (s : LoopState) : Except (String × LoopState) LoopState :=
  let k := s.cycle_count
  let s1 := execute_cycle (env.now k) (env.elapsed k) s
  match manage_cycle_timing s1.last_cycle_time with
  | none => Except.ok s1
  | some d =>
    match env.sleep k d with
    | Except.ok _ => Except.ok s1
    | Except.error e => Except.error (e, s1)

/-- One `while` iteration of `VaderLoop.run`: a raise anywhere in the body
is caught by the `except` clause, which logs and sets `running = False`. -/
def run_iteration (env : VaderEnv) (s : LoopState) : LoopState :=
  match cycle_body env s with
  | Except.ok s1 => s1
  | Except.error (_, s1) => { s1 with running := false }

/-- The `while self.running` loop of `VaderLoop.run`, bounded by fuel (the
real loop runs until `running` becomes false). -/
def run_loop (env : VaderEnv) : Nat → LoopState → LoopState
  | 0, s => s
  | n + 1, s => if s.running then run_loop env n (run_iteration env s) else s

/-- `VaderLoop.run`: set `running = True`, then loop. -/
def run (env : VaderEnv) (fuel : Nat) (s : LoopState) : LoopState :=
  run_loop env fuel { s with running := true }

/-- `VaderLoop.stop`. -/
def stop (s : LoopState) : LoopState := { s with running := false }

end VaderLoop

/-! Concrete instantiations of the external-collaborator parameters, used to
evaluate the theorems below on closed inputs. -/

/-- A file-operations record whose `read_file` raises. -/
def fmops_fail : FileManager.FMOps :=
  { read_file := fun _ => Except.error "boom"
    write_file := fun _ _ => Except.ok { status := "success" }
    list_directory := fun _ => Except.ok { status := "success" }
    delete_file := fun _ => Except.ok { status := "success" }
    move_file := fun _ _ => Except.ok { status := "success" } }

/-- An optimizer-operations record whose `optimize_system` raises. -/
def soops_fail : SelfOptimizer.SOOps :=
  { optimize_system := fun _ => Except.error "disk full"
    analyze_performance := Except.ok { status := "success" }
    suggest_improvements := Except.ok { status := "success" } }

/-- A scraper-operations record that always succeeds. -/
def wsops_ok : WebScraper.WSOps :=
  { fetch_page := fun _ => Except.ok { status := "success" }
    extract_text := fun _ => Except.ok { status := "success" }
    extract_links := fun _ => Except.ok { status := "success" } }

/-- A config-operations record that always succeeds. -/
def clops_ok : ConfigLoader.CLOps :=
  { load_config := fun _ => Except.ok { status := "success" }
    save_config := fun _ _ => Except.ok { status := "success" }
    list_configs := Except.ok { status := "success" }
    validate_config := fun _ _ => Except.ok { status := "success" } }

/-- A loop environment whose `time.sleep` raises (e.g. an interrupt) and
whose measured cycle duration is always `0`. -/
def envW : VaderLoop.VaderEnv :=
  { now := fun _ => "2026-01-01T00:00:00"
    elapsed := fun _ => 0
    sleep := fun _ _ => Except.error "KeyboardInterrupt" }

/-- A freshly started loop state over the initial context. -/
def sW : VaderLoop.LoopState :=
  { running := true, cycle_count := 0, last_cycle_time := 0
    ctx := ContextManager.initial_context }

/-- The state `sW` reaches after one `_execute_cycle` under `envW`. -/
def sW1 : VaderLoop.LoopState :=
  VaderLoop.execute_cycle "2026-01-01T00:00:00" 0 sW

/-! ### Helper lemmas -/

theorem add_to_memory_mem (now : String) (item : Payload) (c : Ctx) :
    (ContextManager.add_to_memory now item c).short_term_memory =
      c.short_term_memory ++ [ContextManager.mkMemEntry now item] := rfl

theorem appendAll_mem (items : List (String × Payload)) (c : Ctx) :
    (ContextManager.appendAll items c).short_term_memory =
      c.short_term_memory ++ items.map (fun it => ContextManager.mkMemEntry it.1 it.2) := by
  induction items generalizing c with
  | nil => simp [ContextManager.appendAll]
  | cons it rest ih =>
    simp only [ContextManager.appendAll, List.foldl_cons, List.map_cons]
    rw [show (List.foldl (fun acc p => ContextManager.add_to_memory p.1 p.2 acc)
          (ContextManager.add_to_memory it.1 it.2 c) rest)
        = ContextManager.appendAll rest (ContextManager.add_to_memory it.1 it.2 c) from rfl]
    rw [ih]
    simp [ContextManager.add_to_memory]

theorem prune_mem (c : Ctx) :
    (ContextManager.prune_short_term_memory c).short_term_memory =
      c.short_term_memory.drop (c.short_term_memory.length - ContextManager.max_items) := by
  unfold ContextManager.prune_short_term_memory
  by_cases h : c.short_term_memory.length > ContextManager.max_items
  · simp [h]
  · have h0 : c.short_term_memory.length - ContextManager.max_items = 0 := by omega
    simp [h, h0]

theorem prune_frame (c : Ctx) :
    (ContextManager.prune_short_term_memory c).system_state = c.system_state ∧
    (ContextManager.prune_short_term_memory c).last_update = c.last_update ∧
    (ContextManager.prune_short_term_memory c).active_tasks = c.active_tasks ∧
    (ContextManager.prune_short_term_memory c).pending_inputs = c.pending_inputs ∧
    (ContextManager.prune_short_term_memory c).environment_data = c.environment_data := by
  unfold ContextManager.prune_short_term_memory
  by_cases h : c.short_term_memory.length > ContextManager.max_items <;> simp [h]

theorem update_mem (now : String) (c : Ctx) :
    (ContextManager.update now c).short_term_memory =
      c.short_term_memory.drop (c.short_term_memory.length - ContextManager.max_items) := by
  unfold ContextManager.update ContextManager.update_environment_data
  rw [prune_mem]

theorem update_frame (now : String) (c : Ctx) :
    (ContextManager.update now c).system_state = c.system_state ∧
    (ContextManager.update now c).last_update = some now ∧
    (ContextManager.update now c).active_tasks = c.active_tasks ∧
    (ContextManager.update now c).pending_inputs = c.pending_inputs ∧
    (ContextManager.update now c).environment_data = c.environment_data := by
  unfold ContextManager.update ContextManager.update_environment_data
  have h := prune_frame ({ c with last_update := some now } : Ctx)
  exact ⟨h.1, h.2.1, h.2.2.1, h.2.2.2.1, h.2.2.2.2⟩

/-! ### Claims -/

/-- C1, counterexample: the claim says `len(shortTermMemory) <= 100` holds
immediately after each `add_to_memory` call, but `add_to_memory` never
prunes: after 101 appends to the initial context (no intervening `update`),
the memory holds 101 entries. -/
theorem claim_C1_counterexample :
    ¬ ((ContextManager.appendAll (List.replicate 101 ("t", "x"))
          ContextManager.initial_context).short_term_memory.length ≤ 100) := by
  rw [appendAll_mem]
  simp [ContextManager.initial_context]

/-- C1, amended: the 100-entry bound is enforced by the pruning step that
`update` runs, not by `add_to_memory` itself. After any sequence of
`add_to_memory` calls on the initial context followed by an `update`, the
memory holds at most 100 entries, and they are exactly the most recent
(at most 100) appended entries, in call order. -/
theorem claim_C1 : ∀ (now : String) (items : List (String × Payload)),
    ((ContextManager.update now
        (ContextManager.appendAll items ContextManager.initial_context)).short_term_memory.length ≤ 100) ∧
    ((ContextManager.update now
        (ContextManager.appendAll items ContextManager.initial_context)).short_term_memory =
      (items.map (fun it => ContextManager.mkMemEntry it.1 it.2)).drop (items.length - 100)) := by
  intro now items
  have hm : (ContextManager.appendAll items ContextManager.initial_context).short_term_memory =
      items.map (fun it => ContextManager.mkMemEntry it.1 it.2) := by
    rw [appendAll_mem]; simp [ContextManager.initial_context]
  constructor
  · rw [update_mem, hm]
    simp only [List.length_drop, List.length_map, ContextManager.max_items]
    omega
  · rw [update_mem, hm]
    simp [ContextManager.max_items]

/-- C2: `get_pending_inputs` returns the current `pending_inputs` and leaves
the stored queue empty (all other fields unchanged), so a second call with
no intervening enqueue returns the empty list; with zero pending inputs it
returns the empty list (the function is total — it never raises). -/
theorem claim_C2 : ∀ c : Ctx,
    (ContextManager.get_pending_inputs c).1 = c.pending_inputs ∧
    (ContextManager.get_pending_inputs c).2 = { c with pending_inputs := [] } ∧
    (ContextManager.get_pending_inputs ((ContextManager.get_pending_inputs c).2)).1 = [] :=
  fun _ => ⟨rfl, rfl, rfl⟩

/-- C10: `update` modifies only `last_update` (set to the fresh timestamp)
and `short_term_memory` (pruned to the last 100 entries); `system_state`,
`active_tasks`, `pending_inputs` and `environment_data` are unchanged (the
environment refresh step `_update_environment_data` is `pass`). -/
theorem claim_C10 : ∀ (now : String) (c : Ctx),
    (ContextManager.update now c).system_state = c.system_state ∧
    (ContextManager.update now c).active_tasks = c.active_tasks ∧
    (ContextManager.update now c).pending_inputs = c.pending_inputs ∧
    (ContextManager.update now c).environment_data = c.environment_data ∧
    (ContextManager.update now c).last_update = some now ∧
    (ContextManager.update now c).short_term_memory =
      c.short_term_memory.drop (c.short_term_memory.length - ContextManager.max_items) := by
  intro now c
  have h := update_frame now c
  exact ⟨h.1, h.2.2.1, h.2.2.2.1, h.2.2.2.2, h.2.1, update_mem now c⟩

/-- C3: a raise inside the dispatch chain of `FileManager.execute` or
`SelfOptimizer.execute` never propagates: the caller always receives the
`{"status": "error", "message": str(e)}` envelope carrying the fault text. -/
theorem claim_C3 : ∀ (fmops : FileManager.FMOps) (fmop : String) (fmp : FileManager.FMParams)
    (soops : SelfOptimizer.SOOps) (soop : String) (sop : SelfOptimizer.SOParams)
    (m1 m2 : String),
    (FileManager.dispatch_op fmops fmop fmp = Except.error m1 →
       FileManager.execute fmops fmop fmp = some (errEnvelope m1)) ∧
    (SelfOptimizer.dispatch_op soops soop sop = Except.error m2 →
       SelfOptimizer.execute soops soop sop = some (errEnvelope m2)) := by
  intro fmops fmop fmp soops soop sop m1 m2
  constructor
  · intro h
    have hall : fmop ∈ FileManager.allowed_operations := by
      by_contra hno
      simp only [FileManager.allowed_operations, List.mem_cons, List.not_mem_nil, or_false,
        not_or] at hno
      obtain ⟨h1, h2, h3, h4, h5⟩ := hno
      simp [FileManager.dispatch_op, h1, h2, h3, h4, h5] at h
    simp [FileManager.execute, hall, h]
  · intro h
    simp [SelfOptimizer.execute, h]

/-- C3 witness: a `read_file` that raises `boom` and an `optimize_system`
that raises `disk full` both surface as error envelopes. -/
theorem claim_C3_witness :
    FileManager.execute fmops_fail "read" { path := some "/etc/x" } = some (errEnvelope "boom") ∧
    SelfOptimizer.execute soops_fail "optimize" {} = some (errEnvelope "disk full") :=
  ⟨(claim_C3 fmops_fail "read" { path := some "/etc/x" } soops_fail "optimize" {}
      "boom" "disk full").1 rfl,
   (claim_C3 fmops_fail "read" { path := some "/etc/x" } soops_fail "optimize" {}
      "boom" "disk full").2 rfl⟩

/-- C4, counterexample: the claim says an unregistered name makes the
dispatcher return an `Error` envelope mentioning `unknown command`, and that
it never returns an absent result — but `ModelRouter.route_request` on the
freshly constructed router and the unregistered name `unknown_cmd` returns
`None`, not a result envelope. -/
theorem claim_C4_counterexample :
    ¬ ∃ res : CmdResult,
        ModelRouter.route_request ModelRouter.init_router "unknown_cmd" "" = some res := by
  rintro ⟨res, h⟩
  have h0 : ModelRouter.route_request ModelRouter.init_router "unknown_cmd" "" = none := rfl
  rw [h0] at h
  exact Option.noConfusion h

/-- C4, amended: for every model-type name with no entry in
`available_models`, `route_request` logs the unknown type and returns `None`
(no envelope at all); it does not raise — the function is total. -/
theorem claim_C4 : ∀ (r : ModelRouter.Router) (name : String) (data : Payload),
    ModelRouter.listLookup name r.available_models = none →
    ModelRouter.route_request r name data = none := by
  intro r name data h
  unfold ModelRouter.route_request
  rw [h]

/-- C4 witness: `unknown_cmd` is absent from the initial router's table and
`route_request` returns `None` on it. -/
theorem claim_C4_witness :
    ModelRouter.listLookup "unknown_cmd" ModelRouter.init_router.available_models = none ∧
    ModelRouter.route_request ModelRouter.init_router "unknown_cmd" "" = none :=
  ⟨rfl, claim_C4 ModelRouter.init_router "unknown_cmd" "" rfl⟩

/-- C9: in each of `WebScraper.execute`, `ConfigLoader.execute` and
`SelfOptimizer.execute`, an operation name matching none of the supported
branches falls off the end of the `try` block: the dispatcher returns `None`
(Python's implicit return), not an error-status envelope and not a raise. -/
theorem claim_C9 : ∀ (wsops : WebScraper.WSOps) (wsp : WebScraper.WSParams)
    (clops : ConfigLoader.CLOps) (clp : ConfigLoader.CLParams)
    (soops : SelfOptimizer.SOOps) (sop : SelfOptimizer.SOParams) (op : String),
    (op ∉ (["fetch_page", "extract_text", "extract_links"] : List String) →
       WebScraper.execute wsops op wsp = none) ∧
    (op ∉ (["load", "save", "list", "validate"] : List String) →
       ConfigLoader.execute clops op clp = none) ∧
    (op ∉ (["optimize", "analyze_performance", "suggest_improvements"] : List String) →
       SelfOptimizer.execute soops op sop = none) := by
  intro wsops wsp clops clp soops sop op
  refine ⟨fun h => ?_, fun h => ?_, fun h => ?_⟩
  · simp only [List.mem_cons, List.not_mem_nil, or_false, not_or] at h
    obtain ⟨h1, h2, h3⟩ := h
    simp [WebScraper.execute, WebScraper.dispatch_op, h1, h2, h3]
  · simp only [List.mem_cons, List.not_mem_nil, or_false, not_or] at h
    obtain ⟨h1, h2, h3, h4⟩ := h
    simp [ConfigLoader.execute, ConfigLoader.dispatch_op, h1, h2, h3, h4]
  · simp only [List.mem_cons, List.not_mem_nil, or_false, not_or] at h
    obtain ⟨h1, h2, h3⟩ := h
    simp [SelfOptimizer.execute, SelfOptimizer.dispatch_op, h1, h2, h3]

/-- C9 witness: the operation name `status` matches no branch of any of the
three dispatchers, and each returns `None` on it. -/
theorem claim_C9_witness :
    WebScraper.execute wsops_ok "status" {} = none ∧
    ConfigLoader.execute clops_ok "status" {} = none ∧
    SelfOptimizer.execute soops_fail "status" {} = none :=
  ⟨(claim_C9 wsops_ok {} clops_ok {} soops_fail {} "status").1 (by decide),
   (claim_C9 wsops_ok {} clops_ok {} soops_fail {} "status").2.1 (by decide),
   (claim_C9 wsops_ok {} clops_ok {} soops_fail {} "status").2.2 (by decide)⟩

/-- C5: when the body of a `run` iteration (`_execute_cycle` followed by
`_manage_cycle_timing`) raises, the `except` clause catches the fault, sets
`running = False`, the `while` guard fails, and control returns to the
caller: however much further fuel the loop is given, no further iteration
runs and the fault is not re-raised (the loop returns a plain state). -/
theorem claim_C5 : ∀ (env : VaderLoop.VaderEnv) (s s1 : VaderLoop.LoopState)
    (msg : String) (n : Nat),
    s.running = true →
    VaderLoop.cycle_body env s = Except.error (msg, s1) →
    VaderLoop.run_loop env (n + 1) s = { s1 with running := false } ∧
    (VaderLoop.run_loop env (n + 1) s).running = false := by
  intro env s s1 msg n hrun hb
  have hiter : VaderLoop.run_iteration env s = { s1 with running := false } := by
    unfold VaderLoop.run_iteration
    rw [hb]
  have hstep : VaderLoop.run_loop env (n + 1) s =
      VaderLoop.run_loop env n (VaderLoop.run_iteration env s) := by
    simp [VaderLoop.run_loop, hrun]
  have hstop : ∀ (m : Nat), VaderLoop.run_loop env m ({ s1 with running := false }) =
      { s1 with running := false } := by
    intro m
    cases m with
    | zero => rfl
    | succ k => simp [VaderLoop.run_loop]
  rw [hstep, hiter, hstop n]
  exact ⟨rfl, rfl⟩

/-- C5 witness: under an environment whose `time.sleep` raises and a
zero-length measured cycle, the first iteration faults in the Pace step and
the loop halts in the stopped state even with fuel for five iterations. -/
theorem claim_C5_witness :
    sW.running = true ∧
    VaderLoop.cycle_body envW sW = Except.error ("KeyboardInterrupt", sW1) ∧
    VaderLoop.run_loop envW 5 sW = { sW1 with running := false } ∧
    (VaderLoop.run_loop envW 5 sW).running = false := by
  have hb : VaderLoop.cycle_body envW sW = Except.error ("KeyboardInterrupt", sW1) := by
    have hlt : (0 : ℚ) < 1 / 10 := by norm_num
    simp [VaderLoop.cycle_body, envW, sW1, VaderLoop.manage_cycle_timing,
      VaderLoop.execute_cycle, hlt]
  exact ⟨rfl, hb, (claim_C5 envW sW sW1 "KeyboardInterrupt" 4 rfl hb).1,
    (claim_C5 envW sW sW1 "KeyboardInterrupt" 4 rfl hb).2⟩

/-- C6 (code evaluation): the Act step of `_execute_cycle` is a stub. The
decision function `_determine_next_action` returns `None` unconditionally,
so `Registry.dispatch` is never reached; `_execute_action` only logs and
changes nothing; and `LoopState` — which mirrors the `VaderLoop` fields
`running`, `cycle_count`, `last_cycle_time` exactly — has no error counter,
so a cycle changes no counter and never stops the loop (`running` is
preserved by `_execute_cycle`). -/
theorem claim_C6_code_stub :
    (∀ s : VaderLoop.LoopState, VaderLoop.determine_next_action s = none) ∧
    (∀ (a : Payload) (s : VaderLoop.LoopState), VaderLoop.execute_action a s = s) ∧
    (∀ (now : String) (e : ℚ) (s : VaderLoop.LoopState),
       (VaderLoop.execute_cycle now e s).running = s.running ∧
       (VaderLoop.execute_cycle now e s).cycle_count = s.cycle_count + 1) := by
  refine ⟨fun _ => rfl, fun _ _ => rfl, fun now e s => ?_⟩
  constructor <;>
    simp [VaderLoop.execute_cycle, VaderLoop.process_inputs, VaderLoop.determine_next_action]

/-- C7: after a cycle, `_manage_cycle_timing` sleeps for exactly
`0.1 - elapsed` seconds when the measured elapsed time is below the 100ms
minimum interval, and does not sleep at all when the elapsed time is at
least 100ms; the elapsed time it inspects is exactly the duration measured
and stored by `_execute_cycle`. -/
theorem claim_C7 : ∀ (t : ℚ) (now : String) (e : ℚ) (s : VaderLoop.LoopState),
    (t < 1 / 10 → VaderLoop.manage_cycle_timing t = some (1 / 10 - t)) ∧
    (1 / 10 ≤ t → VaderLoop.manage_cycle_timing t = none) ∧
    (VaderLoop.execute_cycle now e s).last_cycle_time = e := by
  intro t now e s
  refine ⟨fun h => ?_, fun h => ?_, rfl⟩
  · unfold VaderLoop.manage_cycle_timing
    rw [if_pos h]
  · unfold VaderLoop.manage_cycle_timing
    rw [if_neg (not_lt.mpr h)]

/-- C7 witness: a 50ms cycle sleeps for the remaining 50ms, a 200ms cycle
does not sleep, and the stored `last_cycle_time` is the measured elapsed
time. -/
theorem claim_C7_witness :
    VaderLoop.manage_cycle_timing (1 / 20) = some (1 / 10 - 1 / 20) ∧
    VaderLoop.manage_cycle_timing (1 / 5) = none ∧
    (VaderLoop.execute_cycle "t" (1 / 20) sW).last_cycle_time = 1 / 20 :=
  ⟨(claim_C7 (1 / 20) "t" (1 / 20) sW).1 (by norm_num),
   (claim_C7 (1 / 5) "t" (1 / 5) sW).2.1 (by norm_num),
   (claim_C7 (1 / 20) "t" (1 / 20) sW).2.2⟩

/-- C8: neither `load_initial_state` nor `save_state` propagates a fault
(both are total functions into plain values): a missing context file or a
failed load leaves the context at its defaults; a successful load merges
field by field, so every field the blob omits keeps its current (default)
value; and a failed save leaves the context unchanged and execution
continuing. -/
theorem claim_C8 : ∀ (blob : ContextManager.SavedContext) (msg : String)
    (w : Except String Unit) (c : Ctx),
    (ContextManager.load_initial_state none c = c) ∧
    (ContextManager.load_initial_state (some (Except.error msg)) c = c) ∧
    (blob.system_state = none →
       (ContextManager.load_initial_state (some (Except.ok blob)) c).system_state
         = c.system_state) ∧
    (blob.last_update = none →
       (ContextManager.load_initial_state (some (Except.ok blob)) c).last_update
         = c.last_update) ∧
    (blob.active_tasks = none →
       (ContextManager.load_initial_state (some (Except.ok blob)) c).active_tasks
         = c.active_tasks) ∧
    (blob.pending_inputs = none →
       (ContextManager.load_initial_state (some (Except.ok blob)) c).pending_inputs
         = c.pending_inputs) ∧
    (blob.environment_data = none →
       (ContextManager.load_initial_state (some (Except.ok blob)) c).environment_data
         = c.environment_data) ∧
    (blob.short_term_memory = none →
       (ContextManager.load_initial_state (some (Except.ok blob)) c).short_term_memory
         = c.short_term_memory) ∧
    ((ContextManager.save_state w c).1 = c) := by
  intro blob msg w c
  refine ⟨rfl, rfl, fun h => ?_, fun h => ?_, fun h => ?_, fun h => ?_, fun h => ?_,
    fun h => ?_, ?_⟩
  · simp [ContextManager.load_initial_state, ContextManager.dictUpdate, h]
  · simp [ContextManager.load_initial_state, ContextManager.dictUpdate, h]
  · simp [ContextManager.load_initial_state, ContextManager.dictUpdate, h]
  · simp [ContextManager.load_initial_state, ContextManager.dictUpdate, h]
  · simp [ContextManager.load_initial_state, ContextManager.dictUpdate, h]
  · simp [ContextManager.load_initial_state, ContextManager.dictUpdate, h]
  · cases w <;> rfl

/-- C8 witness: restoring from an entirely empty blob leaves every field of
the initial context at its default, a corrupt file and a missing file leave
the context untouched, and a failing save leaves the context unchanged. -/
theorem claim_C8_witness :
    (ContextManager.load_initial_state none ContextManager.initial_context
       = ContextManager.initial_context) ∧
    (ContextManager.load_initial_state (some (Except.error "corrupt"))
       ContextManager.initial_context = ContextManager.initial_context) ∧
    ((ContextManager.load_initial_state (some (Except.ok {}))
        ContextManager.initial_context).system_state
       = ContextManager.initial_context.system_state) ∧
    ((ContextManager.load_initial_state (some (Except.ok {}))
        ContextManager.initial_context).short_term_memory
       = ContextManager.initial_context.short_term_memory) ∧
    ((ContextManager.save_state (Except.error "disk full")
        ContextManager.initial_context).1 = ContextManager.initial_context) := by
  have h := claim_C8 {} "corrupt" (Except.error "disk full") ContextManager.initial_context
  exact ⟨h.1, h.2.1, h.2.2.1 rfl, h.2.2.2.2.2.2.2.1 rfl, h.2.2.2.2.2.2.2.2⟩
